import Mathlib

/-!
Verification development for the easy-page page-build pipeline
(`src/lib/page.js`, `src/lib/marked-renderer.js`).

The embedding is shallow: the JavaScript functions are translated into
executable Lean functions.  Strings are modelled by Lean `String`
(operated on through their underlying `List Char`), the filesystem by an
association list from absolute paths to file contents, and JavaScript
callback errors by `Except`.  External dependencies (the handlebars-style
template engine, the `marked` structural markdown compiler and the
`easy-outliner` outline extractor) are not part of this repository's
sources; they are modelled from the specification's description of their
boundaries, and each such definition says so in its doc comment.
-/

namespace EasyPage

/- ---------------------------------------------------------------------------
 - basic character utilities
 - ---------------------------------------------------------------------------/

/-- The opening curly brace character (written via its code point). -/
def lbrace : Char := Char.ofNat 123

/-- The closing curly brace character (written via its code point). -/
def rbrace : Char := Char.ofNat 125

/-- Association-list lookup, modelling a JavaScript object used as a map. -/
def lookupAssoc : List (String × String) → String → Option String
  | [], _ => none
  | (k, v) :: rest, key => if k = key then some v else lookupAssoc rest key

/-- A word character in the sense of the JavaScript regex class.  Matches
ASCII letters, digits and the underscore. -/
def isWordChar (c : Char) : Bool := c.isAlphanum || c = '_'

/-- Trim ASCII spaces from both ends of a character list. -/
def trimChars (l : List Char) : List Char :=
  ((l.dropWhile (· = ' ')).reverse.dropWhile (· = ' ')).reverse

/-- Split a character list on a separator character (faithful to
`String.prototype.split` with a single-character separator). -/
def splitOnChar (sep : Char) : List Char → List (List Char)
  | [] => [[]]
  | c :: rest =>
    let r := splitOnChar sep rest
    if c = sep then [] :: r
    else
      match r with
      | [] => [[c]]
      | g :: gs => (c :: g) :: gs

/-- Whether `needle` is a prefix of `hay` (character lists). -/
def leadsList : List Char → List Char → Bool
  | [], _ => true
  | _ :: _, [] => false
  | a :: as, b :: bs => a = b && leadsList as bs

/-- Whether `needle` occurs as a contiguous substring of `hay`. -/
def containsSub (needle hay : List Char) : Bool :=
  match hay with
  | [] => leadsList needle []
  | _ :: rest => leadsList needle hay || containsSub needle rest

/- ---------------------------------------------------------------------------
 - slug computation (src/lib/marked-renderer.js, line 30)
 - ---------------------------------------------------------------------------/

/-- State machine for `replace(/[^\w]+/g, '-')` from
`src/lib/marked-renderer.js` line 30: the flag records whether the scan
is inside a non-word run whose replacement dash has already been
emitted (the greedy `+` of the regex consumes the whole run and the
replacement emits a single dash). -/
def collapseAux : Bool → List Char → List Char
  | _, [] => []
  | b, c :: rest =>
    if isWordChar c then c :: collapseAux false rest
    else if b then collapseAux true rest
    else '-' :: collapseAux true rest

/-- Replace every maximal run of non-word characters by a single dash:
the translation of `text.replace(/[^\w]+/g, '-')`. -/
def collapseNonWord (l : List Char) : List Char :=
  collapseAux false l

/-- The anchor identifier of a heading:
`text.toLowerCase().replace(/[^\w]+/g, '-')` from
`src/lib/marked-renderer.js` (ASCII model of `toLowerCase`). -/
def slugify (text : String) : String :=
  String.mk (collapseNonWord (text.data.map Char.toLower))

/-- The specification's description of the slug ("lowercased, non-word runs
collapsed to a single separator"), written as a direct two-character
lookahead recursion, to be compared with `collapseNonWord` (which was
translated from the source regex). -/
def specCollapse : List Char → List Char
  | [] => []
  | [c] => if isWordChar c then [c] else ['-']
  | c :: d :: rest =>
    if isWordChar c then c :: specCollapse (d :: rest)
    else if isWordChar d then '-' :: specCollapse (d :: rest)
    else specCollapse (d :: rest)

/-- The specification-side slug: lowercase, then collapse non-word runs. -/
def specSlug (text : String) : String :=
  String.mk (specCollapse (text.data.map Char.toLower))

/- ---------------------------------------------------------------------------
 - template engine (external boundary; modelled from the spec)
 - ---------------------------------------------------------------------------/

/-- Scan up to the closing `\x7d\x7d` marker, returning the key text and
the remainder after the marker.  Helper for the modelled template engine. -/
def splitAtClose : List Char → Option (List Char × List Char)
  | [] => none
  | c :: rest =>
    if c = rbrace then
      match rest with
      | c2 :: rest2 =>
        if c2 = rbrace then some ([], rest2)
        else (splitAtClose rest).map fun p => (c :: p.1, p.2)
      | [] => none
    else (splitAtClose rest).map fun p => (c :: p.1, p.2)

/-- Modelled from the spec: the external Template Engine boundary
(`expand(templateString, data, ...) -> string`, consumed as
`easy-utils.renderTmpl`).  Placeholders `\x7b\x7bkey\x7d\x7d` (with
optional surrounding spaces) are replaced by the value of `key` in the
data map; unknown keys expand to the empty string.  `fuel` starts at the
input length and is never exhausted since every step consumes at least
one character. -/
def substAux (data : List (String × String)) : Nat → List Char → List Char
  | 0, cs => cs
  | _ + 1, [] => []
  | fuel + 1, c :: cs =>
    if c = lbrace then
      match cs with
      | c2 :: cs2 =>
        if c2 = lbrace then
          match splitAtClose cs2 with
          | some p =>
            ((lookupAssoc data (String.mk (trimChars p.1))).getD "").data
              ++ substAux data fuel p.2
          | none => c :: c2 :: cs2
        else c :: substAux data fuel cs
      | [] => [c]
    else c :: substAux data fuel cs

/-- Modelled from the spec: the external template-expansion entry point. -/
def renderTmpl (tmpl : String) (data : List (String × String)) : String :=
  String.mk (substAux data tmpl.data.length tmpl.data)

/- ---------------------------------------------------------------------------
 - heading renderer (src/lib/marked-renderer.js, lines 29-45)
 - ---------------------------------------------------------------------------/

/-- The heading template string literally built in
`src/lib/marked-renderer.js` lines 32-38 (curly braces written via
escapes). -/
def headingTmpl : String :=
  "<h\x7b\x7bl\x7d\x7d>"
    ++ "<a href=\"#\x7b\x7burl\x7d\x7d\" class=\"anchor\" name=\"\x7b\x7burl\x7d\x7d\">"
    ++ "<span class=\"header-link\"></span>"
    ++ "</a>"
    ++ "\x7b\x7btext\x7d\x7d"
    ++ "</h\x7b\x7bl\x7d\x7d>"

/-- Translation of `renderer.heading` from `src/lib/marked-renderer.js`: the template
above rendered with `l = level`, `url = slugify text`, `text = text`.
Written as the concatenation the rendering produces; the lemma
`rendererHeading_agrees_tmpl` checks this against the modelled template
engine applied to `headingTmpl`. -/
def rendererHeading (text : String) (level : Nat) : String :=
  let url := slugify text
  "<h" ++ toString level ++ ">"
    ++ "<a href=\"#" ++ url ++ "\" class=\"anchor\" name=\"" ++ url ++ "\">"
    ++ "<span class=\"header-link\"></span>"
    ++ "</a>"
    ++ text
    ++ "</h" ++ toString level ++ ">"

/- ---------------------------------------------------------------------------
 - markdown compiler (external boundary; modelled from the spec)
 - ---------------------------------------------------------------------------/

/-- Parse an ATX heading line: 1 to 6 `#` characters followed by a space;
returns the level and the trimmed heading text. -/
def parseHeadingLine (line : List Char) : Option (Nat × String) :=
  let n := (line.takeWhile (· = '#')).length
  if 1 ≤ n ∧ n ≤ 6 then
    match line.drop n with
    | ' ' :: rest => some (n, String.mk (trimChars rest))
    | _ => none
  else none

/-- Modelled from the spec: the external Markup Compiler boundary
(`marked` with the repository's heading renderer override).  Structural
compilation is delegated: heading lines are rendered through
`rendererHeading`, other non-empty lines become paragraphs. -/
def marked (s : String) : String :=
  String.mk (List.flatten ((splitOnChar '\n' s.data).map (fun line =>
    match parseHeadingLine line with
    | some p => (rendererHeading p.2 p.1).data
    | none => if line = [] then [] else ("<p>" ++ String.mk line ++ "</p>").data)))

/- ---------------------------------------------------------------------------
 - outline extraction (external boundary; modelled from the spec)
 - ---------------------------------------------------------------------------/

/-- A node of the outline tree: heading text, heading level, children. -/
inductive OutlineNode where
  | node (text : String) (level : Nat) (children : List OutlineNode)

/-- Drop characters up to and including the next `>` (skips the rest of a
closing tag). -/
def dropToGt : List Char → List Char
  | [] => []
  | c :: rest => if c = '>' then rest else dropToGt rest

/-- Split at the next `</h` closing marker: returns the heading text and
the remainder after the closing tag. -/
def splitClose : List Char → List Char × List Char
  | '<' :: '/' :: 'h' :: rest => ([], dropToGt rest)
  | [] => ([], [])
  | c :: rest =>
    let p := splitClose rest
    (c :: p.1, p.2)

/-- Modelled from the spec: scan HTML left to right for `<hN>` heading
elements, collecting `(level, text)` pairs.  The fuel starts at the input
length and is never exhausted, as every step consumes at least one
character. -/
def scanAux : Nat → List Char → List (Nat × String)
  | 0, _ => []
  | _ + 1, [] => []
  | fuel + 1, '<' :: 'h' :: d :: '>' :: rest =>
    if '1' ≤ d ∧ d ≤ '9' then
      let p := splitClose rest
      (d.toNat - '0'.toNat, String.mk p.1) :: scanAux fuel p.2
    else scanAux fuel ('h' :: d :: '>' :: rest)
  | fuel + 1, _ :: rest => scanAux fuel rest

/-- Modelled from the spec: the heading scanner entry point. -/
def scanHeadings (html : String) : List (Nat × String) :=
  scanAux html.data.length html.data

/-- A still-open outline node on the extraction stack: its children list
grows as deeper headings are attached. -/
structure Frame where
  ftext : String
  flevel : Nat
  fkids : List OutlineNode

/-- Close a frame into a finished outline node. -/
def closeFrame (f : Frame) : OutlineNode :=
  OutlineNode.node f.ftext f.flevel f.fkids

/-- Close a run of popped frames from the top of the stack downwards:
each closed frame is appended to the children of the frame below it, and
the last produces a single finished node. -/
def closeNest : Frame → List Frame → OutlineNode
  | f, [] => closeFrame f
  | f, g :: gs => closeNest { g with fkids := g.fkids ++ [closeFrame f] } gs

/-- Modelled from the spec: pop every stack frame with level `≥ L`
(so the new top has level `< L`), attaching each closed frame to its
parent's children, or to the top-level forest when the stack empties.
The popped prefix is the maximal prefix with level `≥ L`, and its frames
are closed into each other by `closeNest`. -/
def popGE (L : Nat) (stack : List Frame) (forest : List OutlineNode) :
    List Frame × List OutlineNode :=
  match stack.takeWhile (fun f => L ≤ f.flevel),
        stack.dropWhile (fun f => L ≤ f.flevel) with
  | [], _ => (stack, forest)
  | f :: fs, [] => ([], forest ++ [closeNest f fs])
  | f :: fs, g :: gs => ({ g with fkids := g.fkids ++ [closeNest f fs] } :: gs, forest)

/-- Modelled from the spec: process one heading `(level, text)` — pop the
stack until its top is shallower, then push a fresh node. -/
def outlineStep (acc : List Frame × List OutlineNode) (h : Nat × String) :
    List Frame × List OutlineNode :=
  let p := popGE h.1 acc.1 acc.2
  (⟨h.2, h.1, []⟩ :: p.1, p.2)

/-- Modelled from the spec: build the outline forest from the heading
sequence, ignoring headings deeper than `depth` entirely, then flush the
remaining stack. -/
def outlineOfHeadings (hs : List (Nat × String)) (depth : Nat) : List OutlineNode :=
  let hs := hs.filter (fun h => h.1 ≤ depth)
  let p := hs.foldl outlineStep ([], [])
  (popGE 0 p.1 p.2).2

/-- Modelled from the spec: `easy-outliner`'s `outline(html, depth)`
entry point used by `Page.prototype._addOutline`. -/
def outline (html : String) (depth : Nat) : List OutlineNode :=
  outlineOfHeadings (scanHeadings html) depth

/- ---------------------------------------------------------------------------
 - data model (src/lib/page.js)
 - ---------------------------------------------------------------------------/

/-- The filesystem: an association list from absolute paths to file
contents. -/
def Fs := List (String × String)

/-- Read a file. -/
def fsRead (fs : Fs) (p : String) : Option String :=
  lookupAssoc fs p

/-- Write (or overwrite) a file. -/
def fsWrite (fs : Fs) (p c : String) : Fs :=
  (p, c) :: fs

/-- Errors surfaced through JavaScript callbacks / thrown exceptions. -/
inductive Err where
  | errorMsg (msg : String)
  | typeError (msg : String)
  | notFound (path : String)
deriving Repr, DecidableEq

/-- The strings an error carries; used to state whether an error mentions
a given identifier. -/
def errMentions (e : Err) (s : String) : Bool :=
  match e with
  | .errorMsg m => containsSub s.data m.data
  | .typeError m => containsSub s.data m.data
  | .notFound p => containsSub s.data p.data

/-- Strip leading `./` components from a relative path (the normalization
`path.resolve` performs for the paths this program uses). -/
def normRel : List Char → List Char
  | '.' :: '/' :: rest => normRel rest
  | ['.'] => []
  | l => l

/-- Translation of `path.resolve(base, p)` for an absolute `base`: an absolute `p` wins,
otherwise `p` is joined onto `base`. -/
def pathResolve (base p : String) : String :=
  match p.data with
  | '/' :: _ => p
  | l =>
    let q := normRel l
    if q = [] then base else base ++ "/" ++ String.mk q

/-- The theme object; only `pageTmpl` matters to this core. -/
structure Theme where
  pageTmpl : String := ""
deriving Repr, DecidableEq

/-- The page argument of the constructor (`page.fileName`,
`page.sections`, `page.pageName`). -/
structure PageArg where
  fileName : String := ""
  sections : List String := []
  pageName : Option String := none
deriving Repr, DecidableEq

/-- The mutable data context `opts.data`: caller-supplied scalar keys
plus the derived `pageName`, `sections` and `outline` keys (absent keys
modelled as `none`). -/
structure DataCtx where
  custom : List (String × String) := []
  pageName : Option String := none
  sections : Option (List String) := none
  outline : Option (List OutlineNode) := none

/-- The fully-populated options produced by `Page.prototype._buildOpts`. -/
structure Options where
  root : String
  docs : String
  dest : String
  data : DataCtx
  contents : List (String × String)
  compile : Bool
  depth : Nat
  theme : Theme

/-- The options object as passed by the caller (absent fields `none`,
defaults not yet applied). -/
structure OptsIn where
  root : Option String := none
  docs : Option String := none
  dest : Option String := none
  data : List (String × String) := []
  contents : List (String × String) := []
  compile : Option Bool := none
  depth : Option Nat := none
  theme : Option Theme := none

/-- The state held by a constructed `Page` instance. -/
structure PageState where
  page : PageArg
  opts : Options

/-- The scalar view of the data context handed to the template engine. -/
def dataMap (d : DataCtx) : List (String × String) :=
  (match d.pageName with
   | some p => [("pageName", p)]
   | none => []) ++ d.custom

/- ---------------------------------------------------------------------------
 - option building and construction (src/lib/page.js, lines 55-69, 96-120)
 - ---------------------------------------------------------------------------/

/-- Translation of `Page.prototype._buildOpts`: clone the caller's options, merge in the
defaults (`root: process.cwd()`, `docs: './build/docs'`, `dest: './'`,
`data: \x7b\x7d`, `contents: \x7b\x7d`, `compile: true`, `depth: 3`) and
standardize `root`, `dest` and `docs` to absolute paths. -/
def buildOpts (cwd : String) (o : OptsIn) (th : Theme) : Options :=
  let root := pathResolve cwd (o.root.getD cwd)
  { root := root
    dest := pathResolve root (o.dest.getD "./")
    docs := pathResolve root (o.docs.getD "./build/docs")
    data := { custom := o.data }
    contents := o.contents
    compile := o.compile.getD true
    depth := o.depth.getD 3
    theme := th }

/-- The `Page` constructor (`src/lib/page.js` lines 55-69): throws when
`opts` or `opts.theme` is missing; builds the options; clones
`page || \x7b\x7d`; then unconditionally reads `page.pageName` off the
original argument — a `TypeError` when `page` is `null`/`undefined`. -/
def mkPage (page : Option PageArg) (optsIn : Option OptsIn) (cwd : String) :
    Except Err PageState :=
  match optsIn with
  | none => .error (.errorMsg "missing required opts.")
  | some o =>
    match o.theme with
    | none => .error (.errorMsg "missing required opts.")
    | some th =>
      let opts := buildOpts cwd o th
      let cloned := page.getD {}
      match page with
      | none => .error (.typeError "Cannot read property pageName of undefined")
      | some p =>
        .ok { page := cloned
              opts := { opts with data := { opts.data with pageName := p.pageName } } }

/- ---------------------------------------------------------------------------
 - section pipeline (src/lib/page.js, lines 150-243)
 - ---------------------------------------------------------------------------/

/-- Translation of `easy-utils.hasExt` as described by the spec's extension-marker
disambiguation: whether `ext` occurs among the dot-separated suffix
components of the name (`"a.md.hbs"` has both `md` and `hbs`). -/
def hasExt (s ext : String) : Bool :=
  ((splitOnChar '.' s.data).drop 1).contains ext.data

/-- Translation of `Page.prototype._getSection`: look up the section key in
`opts.contents`; a truthy value (a non-empty string) is returned
verbatim; otherwise the file at `path.resolve(opts.docs, section)` is
read. -/
def getSection (opts : Options) (fs : Fs) (sec : String) : Except Err String :=
  let existingSection := lookupAssoc opts.contents sec
  match existingSection with
  | some c =>
    if c = "" then
      match fsRead fs (pathResolve opts.docs sec) with
      | some t => .ok t
      | none => .error (.notFound (pathResolve opts.docs sec))
    else .ok c
  | none =>
    match fsRead fs (pathResolve opts.docs sec) with
    | some t => .ok t
    | none => .error (.notFound (pathResolve opts.docs sec))

/-- Translation of `Page.prototype._templateSection`: expand the contents against
`opts.data` using the template engine. -/
def templateSection (opts : Options) (c : String) : String :=
  renderTmpl c (dataMap opts.data)

/-- Translation of `Page.prototype._compileSection`: compile markdown with the custom
heading renderer. -/
def compileSection (c : String) : String :=
  marked c

/-- Translation of `Page.prototype._buildSection`: waterfall of `_getSection`, then
`_templateSection` iff the name has the `hbs` extension, then
`_compileSection` iff the name has the `md` extension and `opts.compile`
is set. -/
def buildSection (opts : Options) (fs : Fs) (sec : String) : Except Err String :=
  match getSection opts fs sec with
  | .error e => .error e
  | .ok c =>
    let c1 := if hasExt sec "hbs" then templateSection opts c else c
    let c2 := if hasExt sec "md" && opts.compile then compileSection c1 else c1
    .ok c2

/-- Translation of `async.concatSeries` over `_buildSection`: build each section in
order, stopping at the first error. -/
def buildAll (opts : Options) (fs : Fs) : List String → Except Err (List String)
  | [] => .ok []
  | r :: rs =>
    match buildSection opts fs r with
    | .error e => .error e
    | .ok s =>
      match buildAll opts fs rs with
      | .error e => .error e
      | .ok ss => .ok (s :: ss)

/-- Translation of `Page.prototype._addSections`: on success the built sections are
stored under `opts.data.sections`; on error the data context is left
untouched. -/
def addSections (st : PageState) (fs : Fs) : Except Err Options :=
  match buildAll st.opts fs st.page.sections with
  | .error e => .error e
  | .ok ss => .ok { st.opts with data := { st.opts.data with sections := some ss } }

/-- Concatenate the built sections with an empty separator
(`sections.join('')`). -/
def joinAll (ss : List String) : String :=
  String.mk (ss.map String.data).flatten

/-- Translation of `Page.prototype._addOutline`: when compilation is enabled, outline
the joined sections into `opts.data.outline`; reading `.join` off an
absent `sections` key is the JavaScript `TypeError`. -/
def addOutline (opts : Options) : Except Err Options :=
  if opts.compile then
    match opts.data.sections with
    | none => .error (.typeError "Cannot read property join of undefined")
    | some ss =>
      .ok { opts with data :=
        { opts.data with outline := some (outline (joinAll ss) opts.depth) } }
  else .ok opts

/-- Translation of `Page.prototype._addData`: `async.series` of `_addSections` then
`_addOutline`. -/
def addData (st : PageState) (fs : Fs) : Except Err Options :=
  match addSections st fs with
  | .error e => .error e
  | .ok opts1 => addOutline opts1

/- ---------------------------------------------------------------------------
 - page render and write (src/lib/page.js, lines 274-299)
 - ---------------------------------------------------------------------------/

/-- Translation of `Page.prototype._render` (via `easy-utils.renderFile`): read the
theme's page template file and expand it against `opts.data`. -/
def render (opts : Options) (fs : Fs) : Except Err String :=
  match fsRead fs opts.theme.pageTmpl with
  | none => .error (.notFound opts.theme.pageTmpl)
  | some t => .ok (renderTmpl t (dataMap opts.data))

/-- The observable result of a whole `create` call: the filesystem after
the call, the write event (path and bytes) if the Writer ran, and the
callback value. -/
structure CreateResult where
  fs : Fs
  wrote : Option (String × String)
  result : Except Err String

/-- Translation of `Page.prototype.create`: `async.waterfall` of `_addData`, `_render`,
`_write`.  `_write` ensures `opts.dest` exists and writes the rendered
contents to `path.resolve(opts.dest, page.fileName)`; it only runs after
both previous stages succeed. -/
def create (st : PageState) (fs : Fs) : CreateResult :=
  match addData st fs with
  | .error e => ⟨fs, none, .error e⟩
  | .ok opts1 =>
    match render opts1 fs with
    | .error e => ⟨fs, none, .error e⟩
    | .ok contents =>
      let p := pathResolve opts1.dest st.page.fileName
      ⟨fsWrite fs p contents, some (p, contents), .ok contents⟩

/- ---------------------------------------------------------------------------
 - concrete instances used to settle the claims
 - ---------------------------------------------------------------------------/

/-- A sample theme whose page template lives at `/r/theme/page.hbs`. -/
def sampleTheme : Theme := ⟨"/r/theme/page.hbs"⟩

/-- Options with an override map containing an empty-string value
(`a.md`) and a non-empty one (`b.md`). -/
def optsC1 : Options :=
  { root := "/r", docs := "/r/build/docs", dest := "/r", data := {},
    contents := [("a.md", ""), ("b.md", "override!")],
    compile := true, depth := 3, theme := sampleTheme }

/-- A filesystem holding a file with the same name as the empty-string
override key. -/
def fsC1 : Fs := [("/r/build/docs/a.md", "from file")]

/-- Options carrying `title = Title` in the data context. -/
def optsC2 : Options :=
  { root := "/r", docs := "/r/build/docs", dest := "/r",
    data := { custom := [("title", "Title")] }, contents := [],
    compile := true, depth := 3, theme := sampleTheme }

/-- A filesystem holding the combined template-markup fixture
`section-1.md.hbs` with contents `# \x7b\x7b title \x7d\x7d`. -/
def fsC2 : Fs := [("/r/build/docs/section-1.md.hbs", "# \x7b\x7b title \x7d\x7d")]

/-- Options whose override map makes `ok.hbs` and `ok2.hbs` succeed. -/
def optsC3 : Options :=
  { root := "/r", docs := "/r/build/docs", dest := "/r", data := {},
    contents := [("ok.hbs", "x"), ("ok2.hbs", "y")],
    compile := true, depth := 3, theme := sampleTheme }

/-- A page whose middle section is missing from both the override map
and the (empty) filesystem, while the surrounding sections succeed. -/
def stC3 : PageState :=
  { page := { fileName := "p.html", sections := ["ok.hbs", "missing.md", "ok2.hbs"] },
    opts := optsC3 }

/-- Options with compilation disabled and one resolvable section. -/
def optsC4a : Options :=
  { root := "/r", docs := "/r/build/docs", dest := "/r", data := {},
    contents := [("s.md", "hello")], compile := false, depth := 3,
    theme := sampleTheme }

/-- A page built with compilation disabled. -/
def stC4a : PageState :=
  { page := { fileName := "f.md", sections := ["s.md"] }, opts := optsC4a }

/-- The options `_addData` produces for `stC4a`: sections stored, no
outline. -/
def optsC4aRes : Options :=
  { optsC4a with data := { optsC4a.data with sections := some ["hello"] } }

/-- The same options with compilation enabled. -/
def optsC4b : Options := { optsC4a with compile := true }

/-- A page built with compilation enabled. -/
def stC4b : PageState :=
  { page := { fileName := "f.html", sections := ["s.md"] }, opts := optsC4b }

/-- The options `_addData` produces for `stC4b`: sections stored and the
outline populated. -/
def optsC4bRes : Options :=
  { optsC4b with data := { optsC4b.data with
      sections := some [marked "hello"],
      outline := some (outline (joinAll [marked "hello"]) optsC4b.depth) } }

/-- A page argument for exercising the constructor. -/
def pageC4 : PageArg := { fileName := "x.html", sections := [], pageName := some "x" }

/-- Caller options naming a root and a theme. -/
def optsInC4 : OptsIn := { root := some "/r", theme := some sampleTheme }

/-- The state the constructor produces for `pageC4` / `optsInC4`. -/
def stC4cRes : PageState :=
  { page := pageC4,
    opts := { buildOpts "/cwd" optsInC4 sampleTheme with
      data := { custom := [], pageName := some "x" } } }

/-- Options with an empty override map. -/
def optsC6 : Options :=
  { root := "/r", docs := "/r/build/docs", dest := "/r", data := {},
    contents := [], compile := true, depth := 3, theme := sampleTheme }

/-- A page whose only section is missing, so the build fails before the
write stage. -/
def stC6 : PageState :=
  { page := { fileName := "t.html", sections := ["missing.md"] }, opts := optsC6 }

/-- Caller options for the docs-versus-root distinction: an explicit
root, the docs directory left to its default. -/
def oC7 : OptsIn := { root := some "/r", theme := some sampleTheme }

/-- The options the constructor builds from `oC7` (docs defaults to
`/r/build/docs`). -/
def optsC7 : Options := buildOpts "/cwd" oC7 sampleTheme

/-- A filesystem with different contents at `root + ref` and at
`docs + ref`. -/
def fsC7 : Fs := [("/r/a.md", "ROOT"), ("/r/build/docs/a.md", "DOCS")]

/-- Options whose section resolves from the override map but whose page
template is absent from the filesystem. -/
def optsC8 : Options :=
  { root := "/r", docs := "/r/build/docs", dest := "/r", data := {},
    contents := [("sec.md", "# T")], compile := true, depth := 3,
    theme := sampleTheme }

/-- A page whose sections build fine but whose page-template render
fails. -/
def stC8 : PageState :=
  { page := { fileName := "out.html", sections := ["sec.md"] }, opts := optsC8 }

/-- The options `_addData` produces for `stC8`. -/
def optsC8Res : Options :=
  { optsC8 with data := { optsC8.data with
      sections := some [marked "# T"],
      outline := some (outline (joinAll [marked "# T"]) optsC8.depth) } }

/-- Options whose data context already holds the compiled sections
`H1(A), H2(B), H1(C)`. -/
def optsC9 : Options :=
  { root := "/r", docs := "/r/build/docs", dest := "/r",
    data := { sections := some ["<h1>A</h1>", "<h2>B</h2>", "<h1>C</h1>"] },
    contents := [], compile := true, depth := 3, theme := sampleTheme }

/-- The expected outline forest for the heading sequence
`H1(A), H2(B), H1(C)`: node `A` with single child `B`, then node `C`. -/
def forestC9 : List OutlineNode :=
  [OutlineNode.node "A" 1 [OutlineNode.node "B" 2 []],
   OutlineNode.node "C" 1 []]

/-- A minimal valid caller options object (theme present). -/
def oC10 : OptsIn := { theme := some sampleTheme }

/- ---------------------------------------------------------------------------
 - helper lemmas
 - ---------------------------------------------------------------------------/

/-- Unfolding lemma: `specCollapse` on a word-character head. -/
theorem specCollapse_cons_word (c : Char) (h : isWordChar c = true) (l : List Char) :
    specCollapse (c :: l) = c :: specCollapse l := by
  cases l with
  | nil => simp [specCollapse, h]
  | cons d r => simp [specCollapse, h]

/-- Two non-word heads are interchangeable for `specCollapse`. -/
theorem specCollapse_cons_nonword (c d : Char) (hc : isWordChar c = false)
    (hd : isWordChar d = false) (l : List Char) :
    specCollapse (c :: l) = specCollapse (d :: l) := by
  cases l with
  | nil => simp [specCollapse, hc, hd]
  | cons e r => simp [specCollapse, hc, hd]

/-- The state machine translated from the source regex agrees with the
specification-side two-lookahead recursion, in both machine states. -/
theorem collapseAux_eq_specCollapse (l : List Char) :
    collapseAux false l = specCollapse l ∧
      '-' :: collapseAux true l = specCollapse ('!' :: l) := by
  induction l with
  | nil => exact ⟨rfl, rfl⟩
  | cons c rest ih =>
    obtain ⟨ihA, ihB⟩ := ih
    cases hw : isWordChar c with
    | true =>
      constructor
      · rw [specCollapse_cons_word c hw]
        simp only [collapseAux, hw, if_pos]
        rw [ihA]
      · have h1 : specCollapse ('!' :: c :: rest) = '-' :: specCollapse (c :: rest) := by
          simp [specCollapse, hw, show isWordChar '!' = false by decide]
        rw [h1, specCollapse_cons_word c hw]
        simp only [collapseAux, hw, if_pos]
        rw [ihA]
    | false =>
      constructor
      · have h1 : specCollapse (c :: rest) = specCollapse ('!' :: rest) :=
          specCollapse_cons_nonword c '!' hw (by decide) rest
        rw [h1, ← ihB]
        simp only [collapseAux, hw]
        rfl
      · have h1 : specCollapse ('!' :: c :: rest) = specCollapse (c :: rest) := by
          cases rest with
          | nil => simp [specCollapse, hw, show isWordChar '!' = false by decide]
          | cons e r => simp [specCollapse, hw, show isWordChar '!' = false by decide]
        have h2 : specCollapse (c :: rest) = specCollapse ('!' :: rest) :=
          specCollapse_cons_nonword c '!' hw (by decide) rest
        rw [h1, h2, ← ihB]
        simp only [collapseAux, hw]
        rfl

/-- Validation of `rendererHeading` against the modelled template engine
applied to the literal `headingTmpl` at the repository test fixture
values. -/
theorem rendererHeading_agrees_tmpl :
    renderTmpl headingTmpl [("l", "1"), ("url", "title"), ("text", "Title")] =
      rendererHeading "Title" 1 := rfl

/-- The aggregate build surfaces the error of the first failing section:
every section before it succeeds, the failing one determines the error,
the sections after it are irrelevant. -/
theorem buildAll_first_error (opts : Options) (fs : Fs) :
    ∀ (pre : List String) (f : String) (post : List String) (e : Err),
      (∀ r ∈ pre, ∃ s, buildSection opts fs r = .ok s) →
      buildSection opts fs f = .error e →
      buildAll opts fs (pre ++ f :: post) = .error e := by
  intro pre
  induction pre with
  | nil =>
    intro f post e _ hf
    simp only [List.nil_append, buildAll, hf]
  | cons a as ih =>
    intro f post e hpre hf
    obtain ⟨s, hs⟩ := hpre a (by simp)
    have hrest := ih f post e (fun r hr => hpre r (by simp [hr])) hf
    simp only [List.cons_append, buildAll, hs, List.append_eq, hrest]

/-- Case analysis on a successful `_addData`: the sections are stored,
and the outline is added exactly when compilation is enabled. -/
theorem addData_ok_cases (st : PageState) (fs : Fs) (opts1 : Options)
    (h : addData st fs = .ok opts1) :
    ∃ ss, buildAll st.opts fs st.page.sections = .ok ss ∧
      ((st.opts.compile = false ∧
          opts1 = { st.opts with data := { st.opts.data with sections := some ss } })
        ∨ (st.opts.compile = true ∧
          opts1 = { st.opts with data := { st.opts.data with
            sections := some ss,
            outline := some (outline (joinAll ss) st.opts.depth) } })) := by
  unfold addData addSections at h
  cases hba : buildAll st.opts fs st.page.sections with
  | error e => rw [hba] at h; exact absurd h (by simp)
  | ok ss =>
    rw [hba] at h
    refine ⟨ss, rfl, ?_⟩
    unfold addOutline at h
    dsimp only at h
    split at h
    · right
      next hc => exact ⟨hc, (Except.ok.inj h).symm⟩
    · left
      next hc => exact ⟨Bool.eq_false_iff.mpr hc, (Except.ok.inj h).symm⟩

/-- A failure of `_addData` makes `create` return the error with the
filesystem untouched and no write event. -/
theorem create_of_addData_error (st : PageState) (fs : Fs) (e : Err)
    (h : addData st fs = .error e) :
    create st fs = ⟨fs, none, .error e⟩ := by
  unfold create
  rw [h]

/-- A failure of `_render` makes `create` return the error with the
filesystem untouched and no write event. -/
theorem create_of_render_error (st : PageState) (fs : Fs) (e : Err) (opts1 : Options)
    (h1 : addData st fs = .ok opts1) (h2 : render opts1 fs = .error e) :
    create st fs = ⟨fs, none, .error e⟩ := by
  simp only [create, h1, h2]

/- ---------------------------------------------------------------------------
 - claims
 - ---------------------------------------------------------------------------/

/-- Claim C1, counterexample: the key `a.md` is present in the override
map (mapped to the empty string), yet resolution returns the same-named
file from the docs directory — and with an empty filesystem it fails —
so the override does not win and the filesystem is accessed, contrary to
the claim. -/
theorem c1_counterexample :
    lookupAssoc optsC1.contents "a.md" = some ""
    ∧ getSection optsC1 fsC1 "a.md" = .ok "from file"
    ∧ getSection optsC1 [] "a.md" = .error (.notFound "/r/build/docs/a.md") :=
  ⟨rfl, rfl, rfl⟩

/-- Claim C1, amended: for every section identifier mapped to a
non-empty (truthy) value in the override map, resolution returns the
mapped value verbatim, for every filesystem — so no filesystem access
occurs. -/
theorem c1_override_nonempty_wins :
    ∀ (opts : Options) (fs : Fs) (sec c : String),
      lookupAssoc opts.contents sec = some c → c ≠ "" →
      getSection opts fs sec = .ok c := by
  intro opts fs sec c hl hne
  unfold getSection
  rw [hl]
  dsimp only
  rw [if_neg hne]

/-- Claim C1, witness: the non-empty override `b.md` wins over the
filesystem. -/
theorem c1_override_nonempty_wins_witness :
    getSection optsC1 fsC1 "b.md" = .ok "override!" :=
  c1_override_nonempty_wins optsC1 fsC1 "b.md" "override!" rfl (by decide)

/-- Claim C2: for a section carrying both the `hbs` and `md` markers
with compilation enabled, the build is compilation applied after
template expansion of the resolved contents; concretely, the fixture
`# \x7b\x7b title \x7d\x7d` becomes a compiled `h1` element with the
substituted text `Title` inside it, although `Title` does not occur in
the raw fragment. -/
theorem c2_template_then_compile :
    (∀ (opts : Options) (fs : Fs) (sec : String),
      hasExt sec "hbs" = true → hasExt sec "md" = true → opts.compile = true →
      buildSection opts fs sec =
        (getSection opts fs sec).map (fun c => compileSection (templateSection opts c)))
    ∧ buildSection optsC2 fsC2 "section-1.md.hbs" =
        .ok "<h1><a href=\"#title\" class=\"anchor\" name=\"title\"><span class=\"header-link\"></span></a>Title</h1>"
    ∧ containsSub "Title".data
        "<h1><a href=\"#title\" class=\"anchor\" name=\"title\"><span class=\"header-link\"></span></a>Title</h1>".data
        = true
    ∧ containsSub "Title".data "# \x7b\x7b title \x7d\x7d".data = false := by
  refine ⟨?_, rfl, rfl, rfl⟩
  intro opts fs sec h1 h2 h3
  unfold buildSection
  cases hg : getSection opts fs sec with
  | error e => rfl
  | ok c => simp [h1, h2, h3, Except.map]

/-- Claim C2, witness: the ordering theorem applied to the concrete
combined-marker fixture. -/
theorem c2_template_then_compile_witness :
    buildSection optsC2 fsC2 "section-1.md.hbs" =
      (getSection optsC2 fsC2 "section-1.md.hbs").map
        (fun c => compileSection (templateSection optsC2 c)) :=
  c2_template_then_compile.1 optsC2 fsC2 "section-1.md.hbs" rfl rfl rfl

/-- Claim C3: when every section before `f` builds and `f` fails with
`e`, the aggregate `_addSections` fails with exactly `e`, whatever the
sections after `f` are; no updated options (and hence no partial
`sections` list) is produced. -/
theorem c3_first_failure_wins :
    ∀ (st : PageState) (fs : Fs) (pre : List String) (f : String)
      (post : List String) (e : Err),
      st.page.sections = pre ++ f :: post →
      (∀ r ∈ pre, ∃ s, buildSection st.opts fs r = .ok s) →
      buildSection st.opts fs f = .error e →
      addSections st fs = .error e := by
  intro st fs pre f post e hsec hpre hf
  unfold addSections
  rw [hsec, buildAll_first_error st.opts fs pre f post e hpre hf]

/-- Claim C3, witness: for sections `[ok.hbs, missing.md, ok2.hbs]` the
reported error is the middle section's, although the last would have
succeeded. -/
theorem c3_first_failure_wins_witness :
    addSections stC3 [] = .error (Err.notFound "/r/build/docs/missing.md") :=
  c3_first_failure_wins stC3 [] ["ok.hbs"] "missing.md" ["ok2.hbs"]
    (Err.notFound "/r/build/docs/missing.md") rfl
    (fun r hr => by
      simp only [List.mem_singleton] at hr
      subst hr
      exact ⟨"x", rfl⟩)
    rfl

/-- Claim C4: with compilation disabled, `_addData` never populates
`outline`; whenever the resulting data context has `outline` populated,
compilation was enabled and `sections` is present; and a freshly
constructed page starts with neither key. -/
theorem c4_outline_only_with_compile :
    (∀ (st : PageState) (fs : Fs) (opts1 : Options),
        st.opts.data.outline = none → st.opts.compile = false →
        addData st fs = .ok opts1 → opts1.data.outline = none)
    ∧ (∀ (st : PageState) (fs : Fs) (opts1 : Options),
        st.opts.data.outline = none → addData st fs = .ok opts1 →
        opts1.data.outline ≠ none →
        st.opts.compile = true ∧ opts1.data.sections ≠ none)
    ∧ (∀ (page : PageArg) (o : OptsIn) (cwd : String) (st : PageState),
        mkPage (some page) (some o) cwd = .ok st →
        st.opts.data.outline = none ∧ st.opts.data.sections = none) := by
  refine ⟨?_, ?_, ?_⟩
  · intro st fs opts1 hout hcomp hadd
    obtain ⟨ss, _, hcase⟩ := addData_ok_cases st fs opts1 hadd
    rcases hcase with ⟨_, rfl⟩ | ⟨hc, _⟩
    · exact hout
    · rw [hcomp] at hc; cases hc
  · intro st fs opts1 hout hadd hne
    obtain ⟨ss, _, hcase⟩ := addData_ok_cases st fs opts1 hadd
    rcases hcase with ⟨hc, rfl⟩ | ⟨hc, rfl⟩
    · exact absurd hout hne
    · exact ⟨hc, by simp⟩
  · intro page o cwd st hmk
    unfold mkPage at hmk
    dsimp only at hmk
    split at hmk
    · cases hmk
    · have heq := Except.ok.inj hmk
      subst heq
      exact ⟨rfl, rfl⟩

/-- Claim C4, witness: the disabled-compile build keeps `outline`
absent; the enabled build has compile set and sections present; the
constructor starts with both keys absent. -/
theorem c4_outline_only_with_compile_witness :
    optsC4aRes.data.outline = none
    ∧ (stC4b.opts.compile = true ∧ optsC4bRes.data.sections ≠ none)
    ∧ (stC4cRes.opts.data.outline = none ∧ stC4cRes.opts.data.sections = none) := by
  refine ⟨?_, ?_, ?_⟩
  · exact c4_outline_only_with_compile.1 stC4a [] optsC4aRes rfl rfl rfl
  · exact c4_outline_only_with_compile.2.1 stC4b [] optsC4bRes rfl rfl
      (by simp [optsC4bRes])
  · exact c4_outline_only_with_compile.2.2 pageC4 optsInC4 "/cwd" stC4cRes rfl

/-- Claim C5: every heading renders as a level-`level` element wrapping
an anchor whose `href` and `name` both carry `slugify text`; the slug
translated from the source regex coincides with the specification's
description (lowercase, non-word runs collapsed to one separator); and
the renderer is a pure function of the heading text, so identical
headings produce identical anchors (no de-duplication). -/
theorem c5_heading_anchor_slug :
    (∀ (text : String) (level : Nat),
      rendererHeading text level =
        "<h" ++ toString level ++ ">"
          ++ "<a href=\"#" ++ slugify text ++ "\" class=\"anchor\" name=\""
          ++ slugify text ++ "\">"
          ++ "<span class=\"header-link\"></span>"
          ++ "</a>"
          ++ text
          ++ "</h" ++ toString level ++ ">")
    ∧ (∀ text : String, slugify text = specSlug text)
    ∧ (∀ (t1 t2 : String) (level : Nat), t1 = t2 →
        rendererHeading t1 level = rendererHeading t2 level) := by
  refine ⟨?_, ?_, ?_⟩
  · intro text level
    rfl
  · intro text
    unfold slugify specSlug collapseNonWord
    rw [(collapseAux_eq_specCollapse (text.data.map Char.toLower)).1]
  · intro t1 t2 level h
    rw [h]

/-- Claim C5, witness: the heading theorem at `Hello, World!` level 2
(slug `hello-world-`), the slug agreement at the same text, and the
identical-text case at `Title`. -/
theorem c5_heading_anchor_slug_witness :
    rendererHeading "Hello, World!" 2 =
      "<h2><a href=\"#hello-world-\" class=\"anchor\" name=\"hello-world-\"><span class=\"header-link\"></span></a>Hello, World!</h2>"
    ∧ slugify "Hello, World!" = specSlug "Hello, World!"
    ∧ rendererHeading "Title" 1 = rendererHeading "Title" 1 :=
  ⟨(c5_heading_anchor_slug.1 "Hello, World!" 2).trans rfl,
    c5_heading_anchor_slug.2.1 "Hello, World!",
    c5_heading_anchor_slug.2.2 "Title" "Title" 1 rfl⟩

/-- Claim C6: when `_addData` or `_render` fails, `create` surfaces the
error with the filesystem unchanged (no file created or modified
anywhere, in particular not at `dest/fileName`) and no write event: the
Writer only runs after the full render succeeds. -/
theorem c6_writer_only_after_success :
    ∀ (st : PageState) (fs : Fs) (e : Err),
      (addData st fs = .error e ∨
        ∃ opts1, addData st fs = .ok opts1 ∧ render opts1 fs = .error e) →
      create st fs = ⟨fs, none, .error e⟩ := by
  intro st fs e h
  rcases h with h | ⟨opts1, h1, h2⟩
  · exact create_of_addData_error st fs e h
  · exact create_of_render_error st fs e opts1 h1 h2

/-- Claim C6, witness: a missing section file aborts the build with
nothing written. -/
theorem c6_writer_only_after_success_witness :
    create stC6 [] = ⟨[], none, .error (Err.notFound "/r/build/docs/missing.md")⟩ :=
  c6_writer_only_after_success stC6 []
    (Err.notFound "/r/build/docs/missing.md") (Or.inl rfl)

/-- Claim C7, counterexample: with root `/r` and the docs directory left
to its default, the resolver reads `/r/build/docs/a.md` (the docs path),
not `/r/a.md` (`root + ref`), although both files exist with different
contents. -/
theorem c7_counterexample :
    optsC7.root = "/r"
    ∧ lookupAssoc optsC7.contents "a.md" = none
    ∧ pathResolve optsC7.root "a.md" = "/r/a.md"
    ∧ fsRead fsC7 "/r/a.md" = some "ROOT"
    ∧ getSection optsC7 fsC7 "a.md" = .ok "DOCS"
    ∧ ("DOCS" : String) ≠ "ROOT" :=
  ⟨rfl, rfl, rfl, rfl, rfl, by decide⟩

/-- Claim C7, amended: a section absent from the override map is read
from the file at `path.resolve(opts.docs, ref)`, where `opts.docs` is
the configured docs directory, itself resolved against the root (default
`root/build/docs`) — not against the root directly. -/
theorem c7_reads_docs_directory :
    (∀ (opts : Options) (fs : Fs) (sec : String),
      lookupAssoc opts.contents sec = none →
      getSection opts fs sec =
        match fsRead fs (pathResolve opts.docs sec) with
        | some t => .ok t
        | none => .error (.notFound (pathResolve opts.docs sec)))
    ∧ (∀ (cwd : String) (o : OptsIn) (th : Theme),
      (buildOpts cwd o th).docs =
        pathResolve (pathResolve cwd (o.root.getD cwd)) (o.docs.getD "./build/docs")) := by
  constructor
  · intro opts fs sec hl
    unfold getSection
    rw [hl]
  · intro cwd o th
    rfl

/-- Claim C7, witness: the amended read at the docs-resolved path. -/
theorem c7_reads_docs_directory_witness :
    getSection optsC7 fsC7 "a.md" = .ok "DOCS" :=
  (c7_reads_docs_directory.1 optsC7 fsC7 "a.md" rfl).trans rfl

/-- Claim C8, counterexample: a build whose page-template render fails
surfaces the raw `notFound` error for the template path; the error
mentions neither the page file name `out.html` nor the section
identifier `sec.md`, so it is not enriched as the claim states. -/
theorem c8_counterexample :
    (create stC8 []).result = .error (Err.notFound "/r/theme/page.hbs")
    ∧ errMentions (Err.notFound "/r/theme/page.hbs") "out.html" = false
    ∧ errMentions (Err.notFound "/r/theme/page.hbs") "sec.md" = false :=
  ⟨rfl, rfl, rfl⟩

/-- Claim C8, amended: the error of the first failing stage propagates
to the caller unchanged — no enrichment with the section identifier or
the page file name is performed. -/
theorem c8_error_propagates_unchanged :
    ∀ (st : PageState) (fs : Fs) (e : Err),
      (addData st fs = .error e ∨
        ∃ opts1, addData st fs = .ok opts1 ∧ render opts1 fs = .error e) →
      (create st fs).result = .error e := by
  intro st fs e h
  rcases h with h | ⟨opts1, h1, h2⟩
  · rw [create_of_addData_error st fs e h]
  · rw [create_of_render_error st fs e opts1 h1 h2]

/-- Claim C8, witness: the failing render's error is delivered verbatim. -/
theorem c8_error_propagates_unchanged_witness :
    (create stC8 []).result = .error (Err.notFound "/r/theme/page.hbs") :=
  c8_error_propagates_unchanged stC8 [] (Err.notFound "/r/theme/page.hbs")
    (Or.inr ⟨optsC8Res, rfl, rfl⟩)

/-- Claim C9: for compiled sections with the heading sequence
`H1(A), H2(B), H1(C)`, `_addOutline` stores exactly the forest
`[A ▸ [B], C]`: two top-level nodes, the first with the single childless
child `B`, the second childless. -/
theorem c9_outline_nesting :
    addOutline optsC9 =
      .ok { optsC9 with data := { optsC9.data with outline := some forestC9 } } := rfl

/-- Claim C10: for any caller options carrying a theme, constructing a
page with a null/undefined page argument throws a `TypeError` from the
unconditional `page.pageName` dereference, despite the `page || \x7b\x7d`
defaulting used for the clone. -/
theorem c10_null_page_type_error :
    ∀ (o : OptsIn) (th : Theme) (cwd : String),
      o.theme = some th →
      mkPage none (some o) cwd =
        .error (.typeError "Cannot read property pageName of undefined") := by
  intro o th cwd hth
  unfold mkPage
  dsimp only
  rw [hth]

/-- Claim C10, witness: the minimal valid options with a null page. -/
theorem c10_null_page_type_error_witness :
    mkPage none (some oC10) "/cwd" =
      .error (.typeError "Cannot read property pageName of undefined") :=
  c10_null_page_type_error oC10 sampleTheme "/cwd" rfl

end EasyPage
